import Mathlib

/-!
Verification of the document-extraction orchestration core of the
OMSAssignment repository (Express + services backend).

The embedding is shallow.  External effects (file reads, PDF page
retrieval, the OCR worker, the remote language-model calls, JSON.parse)
are threaded as explicit outcome oracles of type `Except JsError α`;
JavaScript strings are Lean `String`s, JS objects appearing as data are
explicit structures, and thrown JS `Error` values are `JsError`.

Source map:
  * `src/server/services/extraction.js`  — `extractTextFromDocument`,
    `extractTextFromPDF`, `extractTextFromImage` (standard pipeline);
  * `src/server/services/gemini.ts`      — `extractWithGemini` and its two
    helpers (AI pipeline used by `src/server/routes.ts`);
  * `src/server/services/openai.js` and `src/unnamed/part_000`
    — the OpenAI variant: the two inner extraction helpers and the error
    classifier `handleOpenAIExtractionError`;
  * `src/server/routes.ts` lines 62–106 (and the identical
    `src/unnamed/part_004` lines 64–108) — the orchestration block of the
    `POST /api/process-document` handler.
-/

namespace OMS

/-- The whitespace characters stripped by JavaScript `String.prototype.trim`
(restricted to the ASCII space classes that can actually occur in the
strings this code builds). -/
def isJsSpace (c : Char) : Bool :=
  c == ' ' || c == '\t' || c == '\n' || c == '\r' || c == '\x0b' || c == '\x0c'

/-- Model of JavaScript `String.prototype.trim`: drop leading and trailing
whitespace. -/
def jsTrim (s : String) : String :=
  ⟨((s.data.dropWhile isJsSpace).reverse.dropWhile isJsSpace).reverse⟩

/-- Model of JavaScript `String.prototype.startsWith`: `s` starts with
`pre`. -/
def jsStartsWith (s pre : String) : Bool :=
  List.isPrefixOf pre.data s.data

/-- A thrown JavaScript `Error` object as the extraction code inspects it:
its `message` plus the optional `status` / `type` / `code` fields that the
OpenAI SDK attaches and `handleOpenAIExtractionError` reads. -/
structure JsError where
  message : String
  status : Option Nat
  type : Option String
  code : Option String
deriving Repr, DecidableEq

/-- `new Error(msg)`: a fresh error carrying only a message. -/
def jsError (m : String) : JsError := ⟨m, none, none, none⟩

/-- JavaScript `String(error)` for an `Error` object: `"Error: msg"`, or
just `"Error"` when the message is empty. -/
def jsErrorToString (e : JsError) : String :=
  if e.message = "" then "Error" else "Error: " ++ e.message

/-- The JS idiom `error.message || String(error)` (used in the catch
blocks): the message, unless it is the empty string. -/
def jsMessageOrString (e : JsError) : String :=
  if e.message = "" then jsErrorToString e else e.message

/-- JSON values, the possible results of `JSON.parse`. -/
inductive Json where
  | null
  | bool (b : Bool)
  | num (n : Int)
  | str (s : String)
  | arr (xs : List Json)
  | obj (fields : List (String × Json))

/-- The result shape produced by the AI extraction services
(`interface ExtractedData` in `gemini.ts`): a structured key-value part
and the raw text.  JS objects are open, so the `errorOccurred` property
that the spec entity `AiExtractionResult` mentions is modelled as an optional
field; reading a property that was never assigned yields `undefined`,
i.e. `none`.  None of the extraction-service or route code under
`src/server` ever assigns it. -/
structure ExtractedData where
  structuredData : Json
  rawText : String
  errorOccurred : Option Bool

/-- The requested processing method (`processingMethod` form field). -/
inductive Method where
  | standard
  | ai
deriving Repr, DecidableEq

/-- The extraction-relevant part of the object handed to
`storage.createProcessedDocument` in `routes.ts` lines 93–106
(`processingTime`, a wall-clock duration, is real-time behaviour and is
not modelled). -/
structure MergedResult where
  standardExtractedText : String
  aiExtractedData : Option ExtractedData
  rawExtractedText : String

/-! ## Standard pipeline — `src/server/services/extraction.js` -/

/-- One PDF page as `extractTextFromPDF` sees it: `getPage` followed by
`getTextContent` either yields the ordered list of text-fragment strings
(`item.str` for each item) or throws. -/
abbrev PdfPage := Except JsError (List String)

/-- A successfully loaded PDF document: its pages, in order (the loop
walks `pageNum = 1 .. numPages`). -/
structure PdfDocument where
  pages : List PdfPage

/-- What one page adds to `extractedText` in `extraction.js` lines
92–114: on success the fragments are joined with single spaces and, when
the joined text does not trim to empty, framed by a `--- Page N ---`
marker; on a per-page error the marker frames the placeholder line
instead, and the loop continues. -/
def pdfPageContribution (pageNum : Nat) (page : PdfPage) : String :=
  match page with
  | .ok items =>
    let pageText := String.intercalate " " items
    if jsTrim pageText = "" then ""
    else "\n--- Page " ++ toString pageNum ++ " ---\n" ++ pageText ++ "\n"
  | .error _ =>
    "\n--- Page " ++ toString pageNum ++ " ---\n[Error extracting text from this page]\n"

/-- The page loop of `extractTextFromPDF`, accumulating `extractedText`
page by page starting from page number `n`. -/
def pdfPagesText : Nat → List PdfPage → String
  | _, [] => ""
  | n, p :: rest => pdfPageContribution n p ++ pdfPagesText (n + 1) rest

/-- `extractTextFromPDF` (`extraction.js` lines 68–132).  `load` is the
combined outcome of `fs.readFile` + `getDocument(...).promise`: either a
load error or the loaded document.  After the page loop the text is
trimmed; if it is empty a `No text content found in PDF document` error
is thrown.  The catch of the function itself re-wraps every error (including that
one) with the `Failed to extract text from PDF:` prefix. -/
def extractTextFromPDF (load : Except JsError PdfDocument) : Except JsError String :=
  let inner : Except JsError String :=
    match load with
    | .error e => .error e
    | .ok doc =>
      let extractedText := jsTrim (pdfPagesText 1 doc.pages)
      if extractedText = "" then .error (jsError "No text content found in PDF document")
      else .ok extractedText
  match inner with
  | .ok s => .ok s
  | .error e => .error (jsError ("Failed to extract text from PDF: " ++ e.message))

/-- The two effectful steps of `extractTextFromImage`:
`createWorker("eng")` and `worker.recognize(filePath)` (which yields the
recognized text). -/
structure OcrEnv where
  createWorker : Except JsError Unit
  recognize : Except JsError String

/-- An OCR run: its outcome plus how many workers were acquired and how
many were released (terminated), so the resource discipline of the
`try`/`catch`/`finally` can be stated. -/
structure OcrRun where
  result : Except JsError String
  acquired : Nat
  released : Nat

/-- `extractTextFromImage` (`extraction.js` lines 150–175).  `worker`
starts `null`; if `createWorker` throws, the catch throws the uniform OCR
failure and the finally sees `worker` still `null` (no release).  If
recognition throws, the catch throws the same failure and the finally
terminates the worker.  On success the trimmed text is returned and the
finally terminates the worker. -/
def extractTextFromImage (env : OcrEnv) : OcrRun :=
  match env.createWorker with
  | .error _ => ⟨.error (jsError "Failed to extract text from image using OCR"), 0, 0⟩
  | .ok _ =>
    match env.recognize with
    | .error _ => ⟨.error (jsError "Failed to extract text from image using OCR"), 1, 1⟩
    | .ok text => ⟨.ok (jsTrim text), 1, 1⟩

/-- The external outcomes the standard pipeline can consume for one
request: the PDF load outcome and the OCR step outcomes.  Which of them
is actually used depends on the MIME-type dispatch. -/
structure StandardEnv where
  pdfLoad : Except JsError PdfDocument
  ocr : OcrEnv

/-- `extractTextFromDocument` (`extraction.js` lines 32–50): dispatch on
the MIME type — `application/pdf` to the PDF extractor, anything starting
with `image/` to OCR, anything else throws `Unsupported file type:` —
followed by the uniform re-wrap `Failed to extract text:` applied by its
catch to every error. -/
def extractTextFromDocument (env : StandardEnv) (mimeType : String) : Except JsError String :=
  let inner : Except JsError String :=
    if mimeType = "application/pdf" then extractTextFromPDF env.pdfLoad
    else if jsStartsWith mimeType "image/" then (extractTextFromImage env.ocr).result
    else .error (jsError ("Unsupported file type: " ++ mimeType))
  match inner with
  | .ok s => .ok s
  | .error e => .error (jsError ("Failed to extract text: " ++ e.message))

/-! ## Structured-JSON parsing shared by all AI flows -/

/-- The structured-data parsing block that appears verbatim in
`gemini.ts` (lines 72–81 and 117–126), `openai.js` (lines 246–255 and
320–330) and `part_000`:

```js
let structuredData = {};
try {
  const structuredText = <response body>;
  if (structuredText) structuredData = JSON.parse(structuredText);
} catch (parseError) { structuredData = {}; }
```

`body` is the response body (`none` models a `null`/absent body) and
`jsonParse` is the `JSON.parse` oracle.  An absent or empty body leaves
the empty object; a parse failure is caught and degrades to the empty
object; a successful parse is kept verbatim, whatever JSON shape it is. -/
def parseStructuredData (jsonParse : String → Except JsError Json)
    (body : Option String) : Json :=
  match body with
  | none => Json.obj []
  | some s =>
    if s = "" then Json.obj []
    else
      match jsonParse s with
      | .ok v => v
      | .error _ => Json.obj []

/-! ## AI pipeline — `src/server/services/gemini.ts` -/

/-- The external outcomes consumed by `extractWithGemini` for one
request: the `pdf-parse` text (`data.text`) for the PDF branch, the image
read, the two model calls of the image flow, the model call of the text
flow, and `JSON.parse`.  A model-call success carries the response body,
`none` modelling an absent body. -/
structure GeminiEnv where
  pdfParse : Except JsError String
  readImage : Except JsError Unit
  imageRawTextCall : Except JsError (Option String)
  imageStructuredCall : Except JsError (Option String)
  textStructuredCall : Except JsError (Option String)
  jsonParse : String → Except JsError Json

/-- `extractImageWithAI` in `gemini.ts` (lines 34–91): read the image,
run the raw-text pass (`text() || ""`), run the structured pass, degrade
unparsable structured output to the empty object, and return both.  Its
catch logs and rethrows the error unchanged. -/
def geminiExtractImageWithAI (env : GeminiEnv) : Except JsError ExtractedData :=
  match env.readImage with
  | .error e => .error e
  | .ok _ =>
    match env.imageRawTextCall with
    | .error e => .error e
    | .ok t =>
      let rawText := t.getD ""
      match env.imageStructuredCall with
      | .error e => .error e
      | .ok body => .ok ⟨parseStructuredData env.jsonParse body, rawText, none⟩

/-- `extractTextWithAI` in `gemini.ts` (lines 93–136): one structured
pass over already-extracted text; `rawText` in the result is the input
text itself.  Its catch rethrows unchanged. -/
def geminiExtractTextWithAI (env : GeminiEnv) (text : String) : Except JsError ExtractedData :=
  match env.textStructuredCall with
  | .error e => .error e
  | .ok body => .ok ⟨parseStructuredData env.jsonParse body, text, none⟩

/-- `extractWithGemini` (`gemini.ts` lines 12–32): dispatch —
`application/pdf` goes through `pdf-parse` and then the text-only flow,
`image/*` goes to the two-pass image flow, anything else throws
`Unsupported file type for AI extraction:` — and the catch re-wraps every
error with the `AI extraction failed:` prefix. -/
def extractWithGemini (env : GeminiEnv) (mimeType : String) : Except JsError ExtractedData :=
  let inner : Except JsError ExtractedData :=
    if mimeType = "application/pdf" then
      match env.pdfParse with
      | .error e => .error e
      | .ok text => geminiExtractTextWithAI env text
    else if jsStartsWith mimeType "image/" then geminiExtractImageWithAI env
    else .error (jsError ("Unsupported file type for AI extraction: " ++ mimeType))
  match inner with
  | .ok d => .ok d
  | .error e => .error (jsError ("AI extraction failed: " ++ e.message))

/-! ## OpenAI variant — `src/server/services/openai.js`, `src/unnamed/part_000` -/

/-- The gate `if (error.status || error.type || error.code)` of the
classifier: JS truthiness of each field (`0` and `""` are falsy,
`undefined` is falsy). -/
def hasErrorSignal (e : JsError) : Bool :=
  (match e.status with | some n => n != 0 | none => false) ||
  (match e.type with | some t => t != "" | none => false) ||
  (match e.code with | some c => c != "" | none => false)

/-- The quota / rate-limit test of the classifier:
`error.status === 429 || error.type === "insufficient_quota" || error.code === "rate_limit_exceeded"`. -/
def isQuotaSignal (e : JsError) : Bool :=
  e.status == some 429 || e.type == some "insufficient_quota" ||
    e.code == some "rate_limit_exceeded"

/-- The authentication test of the classifier:
`error.status === 401 || error.type === "invalid_request_error" || error.code === "invalid_api_key"`. -/
def isAuthSignal (e : JsError) : Bool :=
  e.status == some 401 || e.type == some "invalid_request_error" ||
    e.code == some "invalid_api_key"

/-- The server-error test of the classifier: `error.status >= 500`
(false when `status` is absent, as in JS). -/
def isServerErrorSignal (e : JsError) : Bool :=
  match e.status with
  | some n => decide (500 ≤ n)
  | none => false

/-- The user-facing message thrown for quota / rate-limit failures. -/
def quotaExceededMessage : String :=
  "AI service quota exceeded. Please check your OpenAI account usage limits or try using Standard Extraction instead."

/-- The user-facing message thrown for authentication failures. -/
def authFailureMessage : String :=
  "AI service authentication failed. Please check your OpenAI API key configuration."

/-- The user-facing message thrown for 5xx failures. -/
def serviceUnavailableMessage : String :=
  "AI service temporarily unavailable. Please try Standard Extraction or try again later."

/-- The fallthrough message of the classifier:
``AI extraction failed: ${error.message || String(error)}. Try using Standard Extraction as an alternative.`` -/
def genericFailureMessage (e : JsError) : String :=
  "AI extraction failed: " ++ jsMessageOrString e ++
    ". Try using Standard Extraction as an alternative."

/-- `handleOpenAIExtractionError` (`part_000` lines 26–45; the same logic
is inlined in the catch of `extractWithOpenAI`, `openai.js` lines 51–83):
when a structured signal is present, test quota, then auth, then
`status >= 500`, in that order; otherwise (and when no branch matched)
throw the generic message built from the message of the error itself.  The
function always throws; modelled as returning the thrown error. -/
def handleOpenAIExtractionError (e : JsError) : JsError :=
  if hasErrorSignal e then
    if isQuotaSignal e then jsError quotaExceededMessage
    else if isAuthSignal e then jsError authFailureMessage
    else if isServerErrorSignal e then jsError serviceUnavailableMessage
    else jsError (genericFailureMessage e)
  else jsError (genericFailureMessage e)

/-- The error taxonomy of spec §4.4 for the kinds the classifier can
produce (`ContentTooLarge` is produced only by the inner text-flow catch,
not by this classifier). -/
inductive AiErrorKind where
  | quotaExceeded
  | authFailure
  | serviceUnavailable
  | genericFailure
deriving Repr, DecidableEq

/-- The spec-§4.4 kind of the error thrown by
`handleOpenAIExtractionError`, read off its branch structure. -/
def classifyOpenAIError (e : JsError) : AiErrorKind :=
  if hasErrorSignal e then
    if isQuotaSignal e then .quotaExceeded
    else if isAuthSignal e then .authFailure
    else if isServerErrorSignal e then .serviceUnavailable
    else .genericFailure
  else .genericFailure

/-- The external outcomes consumed by the OpenAI inner extraction
helpers: image read, the two model calls of the image flow, the model
call of the text flow, and `JSON.parse`. -/
structure OpenAiEnv where
  readImage : Except JsError Unit
  imageRawTextCall : Except JsError (Option String)
  imageStructuredCall : Except JsError (Option String)
  textStructuredCall : Except JsError (Option String)
  jsonParse : String → Except JsError Json

/-- The catch of `extractImageWithAI` in `openai.js` (lines 261–280):
quota signals are re-thrown with an image-specific quota message, 400 /
invalid-request signals with an invalid-image message, anything else with
the `AI image extraction failed:` prefix. -/
def openaiImageErrorWrap (e : JsError) : JsError :=
  if e.status == some 429 || e.type == some "insufficient_quota" then
    jsError "AI service quota exceeded for image processing. Please check your OpenAI account limits."
  else if e.status == some 400 || e.type == some "invalid_request_error" then
    jsError "Invalid image format for AI processing. Please ensure the image is clear and readable."
  else jsError ("AI image extraction failed: " ++ jsMessageOrString e)

/-- The catch of `extractTextWithAI` in `openai.js` (lines 337–356):
quota signals, then `status === 400` combined with a context-length /
invalid-request signal (the `ContentTooLarge` case), then the generic
`AI text extraction failed:` prefix. -/
def openaiTextErrorWrap (e : JsError) : JsError :=
  if e.status == some 429 || e.type == some "insufficient_quota" then
    jsError "AI service quota exceeded for text processing. Please check your OpenAI account limits."
  else if e.status == some 400 &&
      (e.code == some "context_length_exceeded" || e.type == some "invalid_request_error") then
    jsError "Text content too large for AI processing. Please try with a smaller document."
  else jsError ("AI text extraction failed: " ++ jsMessageOrString e)

/-- `extractImageWithAI` in `openai.js` (lines 186–281): read the image,
raw-text pass (`content || ""`), structured pass, degrade unparsable
structured output to the empty object; the catch classifies and re-wraps
any error of those steps (the JSON-parse failure is caught by the inner
try and never reaches it). -/
def openaiExtractImageWithAI (env : OpenAiEnv) : Except JsError ExtractedData :=
  let inner : Except JsError ExtractedData :=
    match env.readImage with
    | .error e => .error e
    | .ok _ =>
      match env.imageRawTextCall with
      | .error e => .error e
      | .ok t =>
        let rawText := t.getD ""
        match env.imageStructuredCall with
        | .error e => .error e
        | .ok body => .ok ⟨parseStructuredData env.jsonParse body, rawText, none⟩
  match inner with
  | .ok d => .ok d
  | .error e => .error (openaiImageErrorWrap e)

/-- `extractTextWithAI` in `openai.js` (lines 301–357): one structured
pass over already-extracted text, `rawText` set to the input text; the
catch classifies and re-wraps a model-call error (a JSON-parse failure is
caught by the inner try and degrades to the empty object instead). -/
def openaiExtractTextWithAI (env : OpenAiEnv) (text : String) : Except JsError ExtractedData :=
  let inner : Except JsError ExtractedData :=
    match env.textStructuredCall with
    | .error e => .error e
    | .ok body => .ok ⟨parseStructuredData env.jsonParse body, text, none⟩
  match inner with
  | .ok d => .ok d
  | .error e => .error (openaiTextErrorWrap e)

/-! ## Orchestrator — `src/server/routes.ts` lines 62–106 -/

/-- The orchestration block of the `POST /api/process-document` handler,
instrumented with a flag recording whether the AI pipeline was invoked:
run standard extraction; on its failure the whole call fails with that
error (the handler answers 500) and the AI pipeline is never reached.
Otherwise, for method `ai`, run `extractWithGemini`: on success
`rawExtractedText = aiExtractedData.rawText || standardText`; on failure
the catch falls back to the literal
`aiExtractedData = { structuredData: {}, rawText: standardText }`
(note: no `errorOccurred` property is assigned) and `rawExtractedText`
keeps its initial value `standardText`.  For method `standard`,
`aiExtractedData` stays `null`. -/
def processWithLog (stdEnv : StandardEnv) (aiEnv : GeminiEnv)
    (mimeType : String) (method : Method) :
    Except JsError MergedResult × Bool :=
  match extractTextFromDocument stdEnv mimeType with
  | .error e => (.error e, false)
  | .ok standardText =>
    match method with
    | .standard => (.ok ⟨standardText, none, standardText⟩, false)
    | .ai =>
      match extractWithGemini aiEnv mimeType with
      | .ok d =>
        (.ok ⟨standardText, some d,
          if d.rawText = "" then standardText else d.rawText⟩, true)
      | .error _ =>
        (.ok ⟨standardText, some ⟨Json.obj [], standardText, none⟩, standardText⟩, true)

/-- The orchestration outcome itself (`processWithLog` without the
instrumentation flag). -/
def process (stdEnv : StandardEnv) (aiEnv : GeminiEnv)
    (mimeType : String) (method : Method) : Except JsError MergedResult :=
  (processWithLog stdEnv aiEnv mimeType method).1

/-! ## Auxiliary definitions for the theorems below -/

/-- A structured-pass response body that is absent, empty, or rejected by
`JSON.parse`. -/
def unparsableBody (jsonParse : String → Except JsError Json)
    (body : Option String) : Prop :=
  body = none ∨ body = some "" ∨ ∃ s e, body = some s ∧ jsonParse s = .error e

/-- A standard environment: a 1-page PDF whose single page reads "TXT". -/
def envStdTxt : StandardEnv := ⟨.ok ⟨[.ok ["TXT"]]⟩, ⟨.ok (), .ok ""⟩⟩

/-- A Gemini environment in which every remote step fails with a
quota-style message. -/
def envAiFail : GeminiEnv :=
  ⟨.error (jsError "AI:429"), .error (jsError "AI:429"), .error (jsError "AI:429"),
   .error (jsError "AI:429"), .error (jsError "AI:429"), fun _ => .error (jsError "AI:429")⟩

/-- A standard environment whose PDF loads with no pages at all. -/
def envStdNoPages : StandardEnv := ⟨.ok ⟨[]⟩, ⟨.error (jsError "x"), .error (jsError "x")⟩⟩

/-- A standard environment whose OCR recognizes only whitespace. -/
def envStdBlankOcr : StandardEnv := ⟨.error (jsError "unused"), ⟨.ok (), .ok "   "⟩⟩

/-- A standard environment: a 1-page PDF whose single page reads "Hi". -/
def envStdHi : StandardEnv := ⟨.ok ⟨[.ok ["Hi"]]⟩, ⟨.ok (), .ok ""⟩⟩

/-- A standard environment: the 2-page PDF "Hello" / "World". -/
def envStdHelloWorld : StandardEnv :=
  ⟨.ok ⟨[.ok ["Hello"], .ok ["World"]]⟩, ⟨.ok (), .ok ""⟩⟩

/-- A standard environment whose OCR succeeds with "Gif text". -/
def envStdGif : StandardEnv := ⟨.error (jsError "unused"), ⟨.ok (), .ok "Gif text"⟩⟩

/-- A Gemini environment whose image flow succeeds with raw text
"GIF RAW" and an absent structured body. -/
def envAiGif : GeminiEnv :=
  ⟨.error (jsError "unused"), .ok (), .ok (some "GIF RAW"), .ok none, .ok none,
   fun _ => .error (jsError "x")⟩

/-- A Gemini environment whose structured pass answers unparsable text. -/
def envC9gemini : GeminiEnv :=
  ⟨.error (jsError "unused"), .ok (), .ok (some "RAW"), .ok (some "not json"), .ok none,
   fun _ => .error (jsError "bad json")⟩

/-- An OpenAI environment whose structured pass answers unparsable text. -/
def envC9openai : OpenAiEnv :=
  ⟨.ok (), .ok none, .ok none, .ok (some "not json"), fun _ => .error (jsError "bad json")⟩

/-- A Gemini environment whose structured pass answers a JSON array. -/
def envC10gemini : GeminiEnv :=
  ⟨.error (jsError "unused"), .ok (), .ok (some "RAW"), .ok (some "[1]"), .ok none,
   fun _ => .ok (Json.arr [Json.num 1])⟩

/-- An OpenAI environment whose structured pass answers a JSON array. -/
def envC10openai : OpenAiEnv :=
  ⟨.ok (), .ok (some "RAW"), .ok (some "[1]"), .ok none,
   fun _ => .ok (Json.arr [Json.num 1])⟩

/-! ## Helper lemmas -/

/-- An element that fails the predicate survives `dropWhile`. -/
lemma mem_dropWhile_of_neg {α : Type} {p : α → Bool} {x : α} {l : List α}
    (hx : x ∈ l) (hpx : p x = false) : x ∈ l.dropWhile p := by
  induction l with
  | nil => cases hx
  | cons a t ih =>
    rw [List.dropWhile_cons]
    rcases List.mem_cons.mp hx with h | hxt
    · subst h; rw [hpx]; simp
    · cases hpa : p a with
      | true => simpa [hpa] using ih hxt
      | false => simpa [hpa] using List.mem_cons_of_mem a hxt

/-- A string containing a non-whitespace character does not trim to the
empty string. -/
lemma jsTrim_ne_empty {s : String} {c : Char} (hc : c ∈ s.data)
    (hcs : isJsSpace c = false) : jsTrim s ≠ "" := by
  intro h
  have hdata : ((s.data.dropWhile isJsSpace).reverse.dropWhile isJsSpace).reverse = [] := by
    simpa [jsTrim] using congrArg String.data h
  have h4 : c ∈ ((s.data.dropWhile isJsSpace).reverse.dropWhile isJsSpace).reverse :=
    List.mem_reverse.mpr
      (mem_dropWhile_of_neg (List.mem_reverse.mpr (mem_dropWhile_of_neg hc hcs)) hcs)
  rw [hdata] at h4
  cases h4

/-- The opening bracket of the placeholder line occurs in the
contribution of a failed page. -/
lemma lbrack_mem_pageError (n : Nat) (e : JsError) :
    '[' ∈ (pdfPageContribution n (.error e)).data := by
  show '[' ∈ ("\n--- Page " ++ toString n ++ " ---\n[Error extracting text from this page]\n").data
  rw [String.data_append, String.data_append]
  exact List.mem_append.mpr (Or.inr (by decide))

/-- If some page failed, the opening bracket of its placeholder occurs in
the accumulated page text. -/
lemma lbrack_mem_pdfPagesText {e : JsError} :
    ∀ (n : Nat) (pages : List PdfPage), Except.error e ∈ pages →
      '[' ∈ (pdfPagesText n pages).data := by
  intro n pages
  induction pages generalizing n with
  | nil => intro he; cases he
  | cons a t ih =>
    intro he
    show '[' ∈ (pdfPageContribution n a ++ pdfPagesText (n + 1) t).data
    rw [String.data_append]
    rcases List.mem_cons.mp he with h | het
    · exact List.mem_append.mpr (Or.inl (h ▸ lbrack_mem_pageError n e))
    · exact List.mem_append.mpr (Or.inr (ih (n + 1) het))

/-- A loaded document whose accumulated text does not trim to empty
extracts successfully. -/
lemma extractTextFromPDF_ok_doc {doc : PdfDocument}
    (h : jsTrim (pdfPagesText 1 doc.pages) ≠ "") :
    extractTextFromPDF (.ok doc) = .ok (jsTrim (pdfPagesText 1 doc.pages)) := by
  simp [extractTextFromPDF, h]

/-- A successful PDF extraction never returns the empty string. -/
lemma extractTextFromPDF_ok_ne_empty {load : Except JsError PdfDocument} {s : String}
    (h : extractTextFromPDF load = .ok s) : s ≠ "" := by
  cases load with
  | error e => simp [extractTextFromPDF] at h
  | ok doc =>
    by_cases hempty : jsTrim (pdfPagesText 1 doc.pages) = ""
    · simp [extractTextFromPDF, hempty] at h
    · rw [extractTextFromPDF_ok_doc hempty] at h
      simp only [Except.ok.injEq] at h
      rw [← h]
      exact hempty

/-- A quota signal implies the classifier gate is open. -/
lemma hasErrorSignal_of_quota {e : JsError} (h : isQuotaSignal e = true) :
    hasErrorSignal e = true := by
  have h' : e.status = some 429 ∨ e.type = some "insufficient_quota" ∨
      e.code = some "rate_limit_exceeded" := by
    simpa [isQuotaSignal, beq_iff_eq, or_assoc] using h
  rcases h' with h1 | h1 | h1 <;> simp [hasErrorSignal, h1]

/-- An auth signal implies the classifier gate is open. -/
lemma hasErrorSignal_of_auth {e : JsError} (h : isAuthSignal e = true) :
    hasErrorSignal e = true := by
  have h' : e.status = some 401 ∨ e.type = some "invalid_request_error" ∨
      e.code = some "invalid_api_key" := by
    simpa [isAuthSignal, beq_iff_eq, or_assoc] using h
  rcases h' with h1 | h1 | h1 <;> simp [hasErrorSignal, h1]

/-- A server-error signal implies the classifier gate is open. -/
lemma hasErrorSignal_of_server {e : JsError} (h : isServerErrorSignal e = true) :
    hasErrorSignal e = true := by
  unfold isServerErrorSignal at h
  cases hstat : e.status with
  | none => rw [hstat] at h; cases h
  | some n =>
    rw [hstat] at h
    have hn : 500 ≤ n := of_decide_eq_true h
    have : (n != 0) = true := by simp [bne_iff_ne]; omega
    simp [hasErrorSignal, hstat, this]

/-- An absent, empty or unparsable body degrades to the empty object. -/
lemma parseStructuredData_unparsable {jp : String → Except JsError Json}
    {body : Option String} (h : unparsableBody jp body) :
    parseStructuredData jp body = Json.obj [] := by
  rcases h with rfl | rfl | ⟨s, e, rfl, hp⟩
  · rfl
  · rfl
  · by_cases hs : s = "" <;> simp [parseStructuredData, hs, hp]

/-! ## C1 — orchestrator fallback on AI failure -/

/-- C1 (amended): when standard extraction succeeds with `standardText`
and the AI pipeline throws, `process` returns successfully; the fallback
`aiExtractedData` is the literal object with `structuredData` the empty
object and `rawText` equal to `standardText`, with no `errorOccurred`
property assigned, and `rawExtractedText` is `standardText`. -/
theorem c1_ai_failure_fallback (stdEnv : StandardEnv) (aiEnv : GeminiEnv)
    (mimeType s : String) (e : JsError)
    (hstd : extractTextFromDocument stdEnv mimeType = .ok s)
    (hai : extractWithGemini aiEnv mimeType = .error e) :
    process stdEnv aiEnv mimeType Method.ai =
      .ok ⟨s, some ⟨Json.obj [], s, none⟩, s⟩ := by
  unfold process processWithLog
  rw [hstd, hai]

/-- C1 counterexample: at a concrete input where standard extraction
succeeds and the AI pipeline throws, the orchestration succeeds but the
`errorOccurred` property of the fallback is `undefined` (`none`), not
`true` as the claim states. -/
theorem c1_ai_failure_fallback_cex :
    process envStdTxt envAiFail "application/pdf" Method.ai =
      .ok ⟨"--- Page 1 ---\nTXT", some ⟨Json.obj [], "--- Page 1 ---\nTXT", none⟩,
        "--- Page 1 ---\nTXT"⟩ ∧
    (⟨Json.obj [], "--- Page 1 ---\nTXT", none⟩ : ExtractedData).errorOccurred ≠ some true :=
  ⟨rfl, by simp⟩

/-- C1 witness: the amended theorem at the same concrete input. -/
theorem c1_ai_failure_fallback_w :
    process envStdTxt envAiFail "application/pdf" Method.ai =
      .ok ⟨"--- Page 1 ---\nTXT", some ⟨Json.obj [], "--- Page 1 ---\nTXT", none⟩,
        "--- Page 1 ---\nTXT"⟩ :=
  c1_ai_failure_fallback envStdTxt envAiFail "application/pdf" "--- Page 1 ---\nTXT"
    (jsError "AI extraction failed: AI:429") rfl rfl

/-! ## C2 — standard pipeline is the load-bearing baseline -/

/-- C2: the standard pipeline runs first; when it throws, the whole
orchestration fails with that very error for either requested method, and
the AI pipeline is never invoked (the instrumentation flag stays
`false`). -/
theorem c2_standard_failure_propagates (stdEnv : StandardEnv) (aiEnv : GeminiEnv)
    (mimeType : String) (method : Method) (e : JsError)
    (hstd : extractTextFromDocument stdEnv mimeType = .error e) :
    processWithLog stdEnv aiEnv mimeType method = (.error e, false) := by
  unfold processWithLog
  rw [hstd]

/-- C2 witness: a PDF with no extractable text (the `NoContent` case),
requested method `ai`: the doubly wrapped no-content error propagates and
the AI pipeline is not invoked. -/
theorem c2_standard_failure_propagates_w :
    processWithLog envStdNoPages envAiFail "application/pdf" Method.ai =
      (.error (jsError "Failed to extract text: Failed to extract text from PDF: No text content found in PDF document"), false) :=
  c2_standard_failure_propagates envStdNoPages envAiFail "application/pdf" Method.ai
    (jsError "Failed to extract text: Failed to extract text from PDF: No text content found in PDF document") rfl

/-! ## C3 — non-empty-result guarantee -/

/-- C3 (amended): only the PDF branch guarantees non-emptiness: for
`application/pdf`, `extractTextFromDocument` either throws or returns
non-empty text; for `image/...` MIME types it returns the trimmed OCR
output, which may be the empty string. -/
theorem c3_nonempty_only_for_pdf (env : StandardEnv) :
    (∀ s, extractTextFromDocument env "application/pdf" = .ok s → s ≠ "") ∧
    (∀ mimeType t, jsStartsWith mimeType "image/" = true →
      env.ocr.createWorker = .ok () → env.ocr.recognize = .ok t →
      extractTextFromDocument env mimeType = .ok (jsTrim t)) := by
  constructor
  · intro s h
    unfold extractTextFromDocument at h
    rw [if_pos rfl] at h
    cases hp : extractTextFromPDF env.pdfLoad with
    | ok t =>
      rw [hp] at h
      simp only [Except.ok.injEq] at h
      exact h ▸ extractTextFromPDF_ok_ne_empty hp
    | error e => rw [hp] at h; cases h
  · intro mimeType t himg hcw hrec
    have hpdf : mimeType ≠ "application/pdf" := by
      intro hmt
      rw [hmt] at himg
      cases himg
    unfold extractTextFromDocument
    rw [if_neg hpdf, if_pos himg]
    simp [extractTextFromImage, hcw, hrec]

/-- C3 counterexample: OCR on an image that recognizes only whitespace
makes the standard pipeline return the empty string without throwing,
for the supported MIME type `image/png`. -/
theorem c3_nonempty_only_for_pdf_cex :
    extractTextFromDocument envStdBlankOcr "image/png" = .ok "" := rfl

/-- C3 witness: the amended theorem at concrete inputs — the PDF branch
result "--- Page 1 ---\nHi" is non-empty, and the image branch returns
exactly the trimmed OCR output. -/
theorem c3_nonempty_only_for_pdf_w :
    ("--- Page 1 ---\nHi" ≠ "") ∧
    extractTextFromDocument envStdBlankOcr "image/png" = .ok (jsTrim "   ") :=
  ⟨(c3_nonempty_only_for_pdf envStdHi).1 "--- Page 1 ---\nHi" rfl,
   (c3_nonempty_only_for_pdf envStdBlankOcr).2 "image/png" "   " (by decide) rfl rfl⟩

/-! ## C4 — end-to-end scenario A -/

/-- C4 (amended): for the 2-page PDF whose pages parse cleanly to "Hello"
and "World" and method `standard`, the standard extracted text is the
page-marker string "--- Page 1 ---\nHello\n\n--- Page 2 ---\nWorld" (the
extractor frames every page with a `--- Page N ---` marker and trims the
result), `standardExtractedText` equals that string, and
`aiExtractedData` is null. -/
theorem c4_two_page_pdf (aiEnv : GeminiEnv) :
    process envStdHelloWorld aiEnv "application/pdf" Method.standard =
      .ok ⟨"--- Page 1 ---\nHello\n\n--- Page 2 ---\nWorld", none,
        "--- Page 1 ---\nHello\n\n--- Page 2 ---\nWorld"⟩ := rfl

/-- C4 counterexample: the standard extracted text of that PDF is the
page-marker string, which is not the claimed page-joined string
"Hello\nWorld". -/
theorem c4_two_page_pdf_cex :
    extractTextFromDocument envStdHelloWorld "application/pdf" =
      .ok "--- Page 1 ---\nHello\n\n--- Page 2 ---\nWorld" ∧
    "--- Page 1 ---\nHello\n\n--- Page 2 ---\nWorld" ≠ "Hello\nWorld" :=
  ⟨rfl, by decide⟩

/-! ## C5 — per-page failure tolerance -/

/-- C5: a PDF in which at least one page throws during text retrieval
(and at least one other page succeeds) still extracts a non-empty result;
a failing page contributes the marker-framed placeholder line instead of
aborting; and document-level failure happens only on total failure — the
load failing, or the accumulated text trimming to empty. -/
theorem c5_per_page_failure_tolerated (doc : PdfDocument) (e : JsError)
    (hfail : Except.error e ∈ doc.pages)
    (_hsucc : ∃ items, Except.ok items ∈ doc.pages) :
    (∃ s, extractTextFromPDF (.ok doc) = .ok s ∧ s ≠ "") ∧
    (∀ n er, pdfPageContribution n (.error er) =
      "\n--- Page " ++ toString n ++ " ---\n[Error extracting text from this page]\n") ∧
    (∀ (load : Except JsError PdfDocument) (er : JsError),
      extractTextFromPDF load = .error er →
      (∃ le, load = .error le) ∨
      ∃ d, load = .ok d ∧ jsTrim (pdfPagesText 1 d.pages) = "") := by
  refine ⟨?_, ?_, ?_⟩
  · have hne : jsTrim (pdfPagesText 1 doc.pages) ≠ "" :=
      jsTrim_ne_empty (lbrack_mem_pdfPagesText 1 doc.pages hfail) (by decide)
    exact ⟨jsTrim (pdfPagesText 1 doc.pages), extractTextFromPDF_ok_doc hne, hne⟩
  · intro n er
    rfl
  · intro load er h
    cases load with
    | error le => exact Or.inl ⟨le, rfl⟩
    | ok d =>
      refine Or.inr ⟨d, rfl, ?_⟩
      by_cases hempty : jsTrim (pdfPagesText 1 d.pages) = ""
      · exact hempty
      · rw [extractTextFromPDF_ok_doc hempty] at h
        cases h

/-- C5 witness: a 2-page document whose first page throws and whose
second page reads "x" still extracts a non-empty result. -/
theorem c5_per_page_failure_tolerated_w :
    ∃ s, extractTextFromPDF (.ok ⟨[.error (jsError "boom"), .ok ["x"]]⟩) = .ok s ∧ s ≠ "" :=
  (c5_per_page_failure_tolerated ⟨[.error (jsError "boom"), .ok ["x"]]⟩ (jsError "boom")
    (by simp) ⟨["x"], by simp⟩).1

/-! ## C6 — unsupported MIME types -/

/-- C6 (amended): a MIME type that is neither `application/pdf` nor an
`image/...` type is rejected by both dispatches with an unsupported-type
error naming the MIME type; but a MIME type merely starting with
`image/` — such as `image/gif`, outside the supported set — is dispatched
to the image flow of both pipelines, not rejected. -/
theorem c6_unsupported_type_dispatch (stdEnv : StandardEnv) (aiEnv : GeminiEnv)
    (mimeType : String)
    (hpdf : mimeType ≠ "application/pdf")
    (himg : jsStartsWith mimeType "image/" = false) :
    extractTextFromDocument stdEnv mimeType =
      .error (jsError ("Failed to extract text: Unsupported file type: " ++ mimeType)) ∧
    extractWithGemini aiEnv mimeType =
      .error (jsError ("AI extraction failed: Unsupported file type for AI extraction: " ++ mimeType)) := by
  constructor
  · unfold extractTextFromDocument
    rw [if_neg hpdf, if_neg (by simp [himg])]
    rfl
  · unfold extractWithGemini
    rw [if_neg hpdf, if_neg (by simp [himg])]
    rfl

/-- C6 counterexample: `image/gif` is outside the supported set, yet both
dispatches route it to the image flow and can succeed — neither fails
with an unsupported-type error. -/
theorem c6_unsupported_type_dispatch_cex :
    extractTextFromDocument envStdGif "image/gif" = .ok "Gif text" ∧
    extractWithGemini envAiGif "image/gif" = .ok ⟨Json.obj [], "GIF RAW", none⟩ ∧
    (Except.ok "Gif text" : Except JsError String) ≠
      .error (jsError ("Failed to extract text: Unsupported file type: " ++ "image/gif")) :=
  ⟨rfl, rfl, fun h => Except.noConfusion h⟩

/-- C6 witness: the amended theorem at `application/zip`. -/
theorem c6_unsupported_type_dispatch_w :
    extractTextFromDocument envStdGif "application/zip" =
      .error (jsError ("Failed to extract text: Unsupported file type: " ++ "application/zip")) ∧
    extractWithGemini envAiGif "application/zip" =
      .error (jsError ("AI extraction failed: Unsupported file type for AI extraction: " ++ "application/zip")) :=
  c6_unsupported_type_dispatch envStdGif envAiGif "application/zip" (by decide) (by decide)

/-! ## C7 — AI error classification -/

/-- C7 (amended): the classifier applies the spec table in priority
order — quota signals first, then auth signals, then status at least
500 — and the resulting kind is determined by the status/type/code fields
of the error alone (the message only feeds the generic fallthrough text);
no retry exists, the classifier merely rethrows. -/
theorem c7_error_classification (e : JsError) :
    (isQuotaSignal e = true →
      handleOpenAIExtractionError e = jsError quotaExceededMessage ∧
      classifyOpenAIError e = .quotaExceeded) ∧
    (isQuotaSignal e = false → isAuthSignal e = true →
      handleOpenAIExtractionError e = jsError authFailureMessage ∧
      classifyOpenAIError e = .authFailure) ∧
    (isQuotaSignal e = false → isAuthSignal e = false → isServerErrorSignal e = true →
      handleOpenAIExtractionError e = jsError serviceUnavailableMessage ∧
      classifyOpenAIError e = .serviceUnavailable) ∧
    (∀ m : String, classifyOpenAIError ⟨m, e.status, e.type, e.code⟩ =
      classifyOpenAIError e) := by
  refine ⟨?_, ?_, ?_, ?_⟩
  · intro hq
    have hs := hasErrorSignal_of_quota hq
    constructor <;> simp [handleOpenAIExtractionError, classifyOpenAIError, hs, hq]
  · intro hq ha
    have hs := hasErrorSignal_of_auth ha
    constructor <;> simp [handleOpenAIExtractionError, classifyOpenAIError, hs, hq, ha]
  · intro hq ha hsrv
    have hs := hasErrorSignal_of_server hsrv
    constructor <;>
      simp [handleOpenAIExtractionError, classifyOpenAIError, hs, hq, ha, hsrv]
  · intro m
    rfl

/-- C7 counterexample: an upstream error carrying both `status: 500` and
`type: "insufficient_quota"` is classified `QuotaExceeded`, although the
claim rule for status at least 500, read unconditionally, demands
`ServiceUnavailable` for it. -/
theorem c7_error_classification_cex :
    classifyOpenAIError ⟨"boom", some 500, some "insufficient_quota", none⟩ =
      .quotaExceeded ∧
    handleOpenAIExtractionError ⟨"boom", some 500, some "insufficient_quota", none⟩ =
      jsError quotaExceededMessage ∧
    AiErrorKind.quotaExceeded ≠ AiErrorKind.serviceUnavailable :=
  ⟨rfl, rfl, by decide⟩

/-- C7 witness: the amended theorem applied at one concrete error of each
of the three signal classes. -/
theorem c7_error_classification_w :
    (handleOpenAIExtractionError ⟨"x", some 429, none, none⟩ =
        jsError quotaExceededMessage ∧
      classifyOpenAIError ⟨"x", some 429, none, none⟩ = .quotaExceeded) ∧
    (handleOpenAIExtractionError ⟨"x", none, none, some "invalid_api_key"⟩ =
        jsError authFailureMessage ∧
      classifyOpenAIError ⟨"x", none, none, some "invalid_api_key"⟩ = .authFailure) ∧
    (handleOpenAIExtractionError ⟨"x", some 503, none, none⟩ =
        jsError serviceUnavailableMessage ∧
      classifyOpenAIError ⟨"x", some 503, none, none⟩ = .serviceUnavailable) :=
  ⟨(c7_error_classification ⟨"x", some 429, none, none⟩).1 (by decide),
   (c7_error_classification ⟨"x", none, none, some "invalid_api_key"⟩).2.1
     (by decide) (by decide),
   (c7_error_classification ⟨"x", some 503, none, none⟩).2.2.1
     (by decide) (by decide) (by decide)⟩

/-! ## C8 — OCR worker lifecycle -/

/-- C8: in OCR image extraction the acquire count always equals the
release count: a successful worker acquisition is released exactly once
on every exit path (success or recognition error), and a failed
acquisition releases nothing. -/
theorem c8_ocr_worker_balance (env : OcrEnv) :
    (extractTextFromImage env).acquired = (extractTextFromImage env).released ∧
    (env.createWorker = .ok () →
      (extractTextFromImage env).acquired = 1 ∧
      (extractTextFromImage env).released = 1) ∧
    (∀ e, env.createWorker = .error e →
      (extractTextFromImage env).acquired = 0 ∧
      (extractTextFromImage env).released = 0) := by
  obtain ⟨cw, rec⟩ := env
  cases cw <;> cases rec <;> simp [extractTextFromImage]

/-- C8 witness: fault injection — the recognition call throws, yet the
one acquired worker is released exactly once. -/
theorem c8_ocr_worker_balance_w :
    (extractTextFromImage ⟨.ok (), .error (jsError "ocr boom")⟩).acquired = 1 ∧
    (extractTextFromImage ⟨.ok (), .error (jsError "ocr boom")⟩).released = 1 :=
  (c8_ocr_worker_balance ⟨.ok (), .error (jsError "ocr boom")⟩).2.1 rfl

/-! ## C9 — parse-failure policy -/

/-- C9: when the structured-data response body is absent or does not
parse as JSON, the AI client does not raise and returns the empty object
as `structuredData` — shown for the Gemini image flow and the OpenAI
text flow (the two cited sites; the parsing block is shared by all four
structured passes). -/
theorem c9_parse_failure_degrades :
    (∀ (env : GeminiEnv) (raw body : Option String),
      env.readImage = .ok () → env.imageRawTextCall = .ok raw →
      env.imageStructuredCall = .ok body → unparsableBody env.jsonParse body →
      geminiExtractImageWithAI env = .ok ⟨Json.obj [], raw.getD "", none⟩) ∧
    (∀ (env : OpenAiEnv) (text : String) (body : Option String),
      env.textStructuredCall = .ok body → unparsableBody env.jsonParse body →
      openaiExtractTextWithAI env text = .ok ⟨Json.obj [], text, none⟩) := by
  constructor
  · intro env raw body h1 h2 h3 h4
    simp [geminiExtractImageWithAI, h1, h2, h3, parseStructuredData_unparsable h4]
  · intro env text body h1 h2
    simp [openaiExtractTextWithAI, h1, parseStructuredData_unparsable h2]

/-- C9 witness: both flows at concrete unparsable bodies. -/
theorem c9_parse_failure_degrades_w :
    geminiExtractImageWithAI envC9gemini = .ok ⟨Json.obj [], "RAW", none⟩ ∧
    openaiExtractTextWithAI envC9openai "TEXT" = .ok ⟨Json.obj [], "TEXT", none⟩ :=
  ⟨c9_parse_failure_degrades.1 envC9gemini (some "RAW") (some "not json") rfl rfl rfl
     (Or.inr (Or.inr ⟨"not json", jsError "bad json", rfl, rfl⟩)),
   c9_parse_failure_degrades.2 envC9openai "TEXT" (some "not json") rfl
     (Or.inr (Or.inr ⟨"not json", jsError "bad json", rfl, rfl⟩))⟩

/-! ## C10 — structured data is kept verbatim -/

/-- C10: a structured-pass body that parses as any JSON value — object or
not — is returned verbatim as `structuredData`; the empty-object
degradation happens only for absent/empty bodies and parse failures, so
nothing forces `structuredData` to be a key-value object.  Shown for the
Gemini and OpenAI image flows (the cited sites). -/
theorem c10_structured_data_verbatim :
    (∀ (env : GeminiEnv) (raw : Option String) (s : String) (v : Json),
      env.readImage = .ok () → env.imageRawTextCall = .ok raw →
      env.imageStructuredCall = .ok (some s) → s ≠ "" → env.jsonParse s = .ok v →
      geminiExtractImageWithAI env = .ok ⟨v, raw.getD "", none⟩) ∧
    (∀ (env : OpenAiEnv) (raw : Option String) (s : String) (v : Json),
      env.readImage = .ok () → env.imageRawTextCall = .ok raw →
      env.imageStructuredCall = .ok (some s) → s ≠ "" → env.jsonParse s = .ok v →
      openaiExtractImageWithAI env = .ok ⟨v, raw.getD "", none⟩) := by
  constructor
  · intro env raw s v h1 h2 h3 hs hp
    simp [geminiExtractImageWithAI, h1, h2, h3, parseStructuredData, hs, hp]
  · intro env raw s v h1 h2 h3 hs hp
    simp [openaiExtractImageWithAI, h1, h2, h3, parseStructuredData, hs, hp]

/-- C10 witness: both image flows return the parsed JSON array — a
non-object — verbatim as `structuredData`. -/
theorem c10_structured_data_verbatim_w :
    geminiExtractImageWithAI envC10gemini = .ok ⟨Json.arr [Json.num 1], "RAW", none⟩ ∧
    openaiExtractImageWithAI envC10openai = .ok ⟨Json.arr [Json.num 1], "RAW", none⟩ :=
  ⟨c10_structured_data_verbatim.1 envC10gemini (some "RAW") "[1]" (Json.arr [Json.num 1])
     rfl rfl rfl (by decide) rfl,
   c10_structured_data_verbatim.2 envC10openai (some "RAW") "[1]" (Json.arr [Json.num 1])
     rfl rfl rfl (by decide) rfl⟩

end OMS
